import Mathlib

/-!
Verification of the `gslidegen` repository: a shallow embedding of the
Tableau REST client (`src/gslidegen/tableau/client.py`), the Google Drive
client (`src/gslidegen/drive/client.py`) and the PDF utilities
(`src/gslidegen/pdf/utils.py`), together with theorems settling the
specification's claims about them.

Conventions of the embedding:
* Python `None` becomes `Option.none`; a Python truthiness test on an
  optional string (`if self.token:` / `if email and ...:` / `if folder_id:`)
  becomes `truthy`, which is false exactly on `none` and `some ""`.
* Network traffic is made explicit: an operation that performs HTTP requests
  returns, besides its result, the list of requests it issued, in order.
  Server responses are supplied as explicit oracle arguments (already in the
  parsed shape the Python code extracts from XML/JSON).
* Exceptions become `Except String`; the `String` is the exception message.
* The unbounded `while True` pagination loop of `list_workbooks` is embedded
  with an explicit fuel parameter; exhausting the fuel models divergence and
  is reported as a distinguished error that the Python code can never raise.
-/

namespace Gslidegen

/-- Python truthiness of an optional string: `None` and `""` are falsy. -/
def truthy : Option String → Bool
  | none => false
  | some s => !(s = "")

/-- `TableauConfig` dataclass (`tableau/config.py`): connection details. -/
structure TableauConfig where
  server : String
  site_content_url : String
  token_name : String
  token_secret : String
  api_version : String := "3.21"
deriving Repr, DecidableEq

/-- Mutable authentication state of a `TableauClient`: the `token` and
`site_id` attributes, both `None` until sign-in. -/
structure TableauState where
  token : Option String
  siteId : Option String
deriving Repr, DecidableEq

/-- An HTTP request issued by a client, with its URL and (for GET requests
that carry any) its query parameters rendered as key/value strings. -/
inductive Req where
  | get (url : String) (params : List (String × String))
  | post (url : String)
deriving Repr, DecidableEq

/-- `TableauClient._build_url`: `f"{server}/api/{api_version}/{endpoint}"`. -/
def build_url (cfg : TableauConfig) (endpoint : String) : String :=
  cfg.server ++ "/api/" ++ cfg.api_version ++ "/" ++ endpoint

/-- The `RuntimeError` message raised by every session-requiring operation. -/
def notAuthMsg : String := "Not authenticated. Call sign_in() first."

/-- The `site` child element of the `credentials` element of a sign-in
response, carrying an optional `id` attribute. -/
structure SiteElem where
  id : Option String
deriving Repr, DecidableEq

/-- The `credentials` element of a sign-in response: an optional `token`
attribute and an optional `site` child element. -/
structure CredsElem where
  token : Option String
  site : Option SiteElem
deriving Repr, DecidableEq

/-- A parsed sign-in HTTP exchange, as `sign_in` consumes it:
`.error e` models `raise_for_status` raising an `HTTPError e`;
`.ok creds` models a 2xx response whose body parsed to a document in which
`root.find(".//t:credentials")` returned `creds` (`none` when absent). -/
def SignInResponse := Except String (Option CredsElem)

/-- `TableauClient.sign_in`: on an HTTP error or a response with no
`credentials` element the exception propagates and the state is unchanged;
otherwise `token` is set to the `token` attribute and `site_id` to the `id`
attribute of the `site` child (absent pieces become `None`), and the pair is
returned. -/
def sign_in (s : TableauState) (resp : SignInResponse) :
    TableauState × Except String (Option String × Option String) :=
  match resp with
  | .error e => (s, .error e)
  | .ok none => (s, .error "No credentials in response")
  | .ok (some creds) =>
    let token := creds.token
    let siteId := match creds.site with
      | some se => se.id
      | none => none
    (⟨token, siteId⟩, .ok (token, siteId))

/-- `TableauClient.sign_out`: `if self.token:` post to `auth/signout` and
clear both `token` and `site_id`; otherwise do nothing. -/
def sign_out (cfg : TableauConfig) (s : TableauState) :
    TableauState × List Req :=
  if truthy s.token then
    (⟨none, none⟩, [Req.post (build_url cfg "auth/signout")])
  else
    (s, [])

/-- A workbook descriptor as `list_workbooks` builds it from a `workbook`
XML element: `id`/`name` attributes and the `name` attributes of the
`project` and `owner` children (each `None` when absent). -/
structure Workbook where
  id : Option String
  name : Option String
  project_name : Option String
  owner_name : Option String
deriving Repr, DecidableEq

/-- One parsed page of a workbooks listing response: the `totalAvailable`
attribute of the `pagination` element and the workbook descriptors of the
page, in document order. -/
structure WorkbooksPage where
  totalAvailable : Nat
  workbooks : List Workbook
deriving Repr, DecidableEq

/-- The `while True` loop of `list_workbooks`, with explicit fuel.
`server n` is the parsed response to the request for page `n`.  Returns the
accumulated workbook list (`none` iff the fuel ran out, which the Python
loop would experience as divergence) and the page numbers requested, in
order. -/
def listLoop (server : Nat → WorkbooksPage) :
    Nat → List Workbook → Nat → Option (List Workbook) × List Nat
  | 0, _, _ => (none, [])
  | fuel + 1, acc, page =>
    let resp := server page
    let acc' := acc ++ resp.workbooks
    if resp.totalAvailable ≤ acc'.length then
      (some acc', [page])
    else
      let rest := listLoop server fuel acc' (page + 1)
      (rest.1, page :: rest.2)

/-- `TableauClient.list_workbooks`: raises `RuntimeError` when `token` or
`site_id` is falsy, else pages through `sites/{site_id}/workbooks` with
`pageSize`/`pageNumber` parameters, accumulating descriptors until the
accumulated count reaches the latest response's `totalAvailable`. -/
def list_workbooks (cfg : TableauConfig) (s : TableauState)
    (server : Nat → WorkbooksPage) (page_size : Nat) (fuel : Nat) :
    Except String (List Workbook) × List Req :=
  match s.token, s.siteId with
  | some tok, some site =>
    if tok = "" ∨ site = "" then (.error notAuthMsg, [])
    else
      let r := listLoop server fuel [] 1
      let reqs := r.2.map fun n =>
        Req.get (build_url cfg ("sites/" ++ site ++ "/workbooks"))
          [("pageSize", toString page_size), ("pageNumber", toString n)]
      match r.1 with
      | some wbs => (.ok wbs, reqs)
      | none => (.error "fuel exhausted", reqs)
  | _, _ => (.error notAuthMsg, [])

/-- A binary download exchange: `.error e` is a `raise_for_status` failure,
`.ok body` a 2xx response body. -/
def DownloadResponse := Except String String

/-- `TableauClient.download_workbook_pdf`: raises `RuntimeError` when
`token` or `site_id` is falsy, else GETs the PDF-export endpoint with
`type`/`orientation` and optional `maxAge` and `vf_`-prefixed filter
parameters, writes the body to `output_path` and returns that path. -/
def download_workbook_pdf (cfg : TableauConfig) (s : TableauState)
    (net : Req → DownloadResponse) (workbook_id output_path : String)
    (page_type orientation : String) (max_age : Option Int)
    (filters : List (String × String)) :
    Except String String × List Req :=
  match s.token, s.siteId with
  | some tok, some site =>
    if tok = "" ∨ site = "" then (.error notAuthMsg, [])
    else
      let params := [("type", page_type), ("orientation", orientation)]
        ++ (match max_age with
            | some a => [("maxAge", toString a)]
            | none => [])
        ++ filters.map fun fv => ("vf_" ++ fv.1, fv.2)
      let req := Req.get
        (build_url cfg ("sites/" ++ site ++ "/workbooks/" ++ workbook_id ++ "/pdf"))
        params
      match net req with
      | .error e => (.error e, [req])
      | .ok _ => (.ok output_path, [req])
  | _, _ => (.error notAuthMsg, [])

/-- `TableauClient.download_workbook_powerpoint`: raises `RuntimeError` when
`token` or `site_id` is falsy, else GETs the powerpoint-export endpoint with
an optional `maxAge` parameter, writes the body and returns the path. -/
def download_workbook_powerpoint (cfg : TableauConfig) (s : TableauState)
    (net : Req → DownloadResponse) (workbook_id output_path : String)
    (max_age : Option Int) :
    Except String String × List Req :=
  match s.token, s.siteId with
  | some tok, some site =>
    if tok = "" ∨ site = "" then (.error notAuthMsg, [])
    else
      let params := match max_age with
        | some a => [("maxAge", toString a)]
        | none => []
      let req := Req.get
        (build_url cfg
          ("sites/" ++ site ++ "/workbooks/" ++ workbook_id ++ "/powerpoint"))
        params
      match net req with
      | .error e => (.error e, [req])
      | .ok _ => (.ok output_path, [req])
  | _, _ => (.error notAuthMsg, [])

/-- A well-behaved paginated workbooks server holding the fixed list `wbs`:
page `n` (1-indexed) carries entries `(n-1)*P` through `n*P - 1` of `wbs`
and always reports `totalAvailable = wbs.length`. -/
def goodServer (wbs : List Workbook) (P : Nat) (n : Nat) : WorkbooksPage :=
  ⟨wbs.length, (wbs.drop ((n - 1) * P)).take P⟩

/-! ### Google Drive client (`drive/client.py`) -/

/-- The fixed extension-to-media-type table `MIME_TYPES`. -/
def MIME_TYPES : List (String × String) :=
  [(".png", "image/png"),
   (".jpg", "image/jpeg"),
   (".jpeg", "image/jpeg"),
   (".gif", "image/gif"),
   (".webp", "image/webp"),
   (".pdf", "application/pdf"),
   (".pptx", "application/vnd.openxmlformats-officedocument.presentationml.presentation")]

/-- Split a character list at every occurrence of `c` (Python
`str.split(c)` over the characters). -/
def splitChar (c : Char) : List Char → List (List Char)
  | [] => [[]]
  | x :: xs =>
    match splitChar c xs with
    | r :: rs => if x = c then [] :: r :: rs else (x :: r) :: rs
    | [] => [[]]

/-- Python `str.lower()` (ASCII case folding, which is all the mime table's
extensions exercise). -/
def strLower (s : String) : String :=
  String.mk (s.data.map Char.toLower)

/-- `pathlib.PurePath.name`: the final component of a path (paths here are
plain slash-separated strings with a non-empty final component, which is the
only shape `upload_file` receives). -/
def pathName (p : String) : String :=
  String.mk ((splitChar '/' p.data).getLastD [])

/-- `pathlib.PurePath.suffix` of a final component `name`:
`i = name.rfind "."` and the slice `name[i:]` when `0 < i < len(name) - 1`,
else the empty string. -/
def nameSuffix (name : String) : String :=
  let cs := name.data
  let ri := cs.reverse.indexOf '.'
  if ri < cs.length then
    let i := cs.length - 1 - ri
    if 0 < i ∧ i < cs.length - 1 then String.mk (cs.drop i) else ""
  else ""

/-- `Path(p).suffix`: the suffix of the final component. -/
def pathSuffix (p : String) : String :=
  nameSuffix (pathName p)

/-- The `files().create` request body and media that `upload_file` sends:
the Drive-side `name`, the `parents` list (the folder id when one is given,
truthily) and the media's mime type. -/
structure UploadRequest where
  name : String
  parents : List String
  mimeType : String
deriving Repr, DecidableEq

/-- `GoogleDriveClient.upload_file`: raises `FileNotFoundError` when the
local path does not exist (before building any request); defaults `name` to
the local filename and `mime_type` to the `MIME_TYPES` entry for the
lower-cased suffix, falling back to `application/octet-stream`.  `fs` is the
set of existing local paths; the returned list is the network requests sent
(one `files().create` on success, none on failure). -/
def upload_file (fs : List String) (file_path : String)
    (name : Option String) (folder_id : Option String)
    (mime_type : Option String) :
    Except String UploadRequest × List UploadRequest :=
  if file_path ∈ fs then
    let nm := match name with
      | some n => n
      | none => pathName file_path
    let mt := match mime_type with
      | some m => m
      | none =>
        (MIME_TYPES.lookup (strLower (pathSuffix file_path))).getD
          "application/octet-stream"
    let parents := if truthy folder_id then [folder_id.getD ""] else []
    let req : UploadRequest := ⟨nm, parents, mt⟩
    (.ok req, [req])
  else
    (.error ("File not found: " ++ file_path), [])

/-- Python `sep.join(parts)`. -/
def strJoin (sep : String) : List String → String
  | [] => ""
  | [x] => x
  | x :: y :: xs => x ++ sep ++ strJoin sep (y :: xs)

/-- The query string built by `GoogleDriveClient.list_files`: optional
parent-folder and mime-type parts (each included when its argument is
truthy) followed by `trashed=false`, joined with `" and "`. -/
def list_files_query (folder_id : Option String) (mime_type : Option String) :
    String :=
  let query_parts : List String :=
    (if truthy folder_id then
      ["'" ++ folder_id.getD "" ++ "' in parents"] else [])
    ++ (if truthy mime_type then
      ["mimeType='" ++ mime_type.getD "" ++ "'"] else [])
    ++ ["trashed=false"]
  strJoin " and " query_parts

/-- A permission body as `share_file` sends it to `permissions().create`:
`role`, `type`, and `emailAddress` exactly when it was attached. -/
structure Permission where
  role : String
  type : String
  emailAddress : Option String
deriving Repr, DecidableEq

/-- `GoogleDriveClient.share_file`: builds the permission body with `role`
and `type`, attaching `emailAddress` only when `email` is truthy and `type`
is `user` or `group`; creates the permission and returns the file's web view
link (supplied by the oracle `webViewLink`). -/
def share_file (webViewLink : String → String) (file_id : String)
    (role : String) (type : String) (email : Option String) :
    Permission × String :=
  let permission : Permission :=
    { role := role
      type := type
      emailAddress :=
        if truthy email ∧ (type = "user" ∨ type = "group") then email
        else none }
  (permission, webViewLink file_id)

/-! ### PDF utilities (`pdf/utils.py`) -/

/-- `pdf.utils.extract_page` over a readable input PDF given as its page
list `pages` (so `len(reader.pages) = pages.length`): computes the 0-based
`page_index`, raises `ValueError` when it is out of range, and otherwise
writes a PDF holding exactly the selected page to `output_path` and returns
that path.  The `.ok` result is the pair (output path, pages written). -/
def extract_page {α : Type} (pages : List α) (output_path : String)
    (page_number : Int) : Except String (String × List α) :=
  let page_index : Int := page_number - 1
  if h : page_index < 0 ∨ (pages.length : Int) ≤ page_index then
    .error ("Page " ++ toString page_number ++ " out of range (1-" ++
      toString pages.length ++ ")")
  else
    .ok (output_path, [pages.get ⟨page_index.toNat, by omega⟩])

/-- `pdf.utils.get_page_count`: the number of pages of the PDF. -/
def get_page_count {α : Type} (pages : List α) : Nat :=
  pages.length

/-! ### Concrete fixtures used by witnesses and counterexamples -/

/-- A concrete connection configuration. -/
def cfg0 : TableauConfig :=
  { server := "https://tab.example.test"
    site_content_url := "my-site"
    token_name := "tn"
    token_secret := "ts" }

/-- A workbooks server holding no workbooks at all. -/
def emptyServer : Nat → WorkbooksPage := fun _ => ⟨0, []⟩

/-- Concrete workbook descriptors. -/
def wb1 : Workbook := ⟨some "id1", some "Sales", some "Proj", some "Ada"⟩

/-- Concrete workbook descriptors. -/
def wb2 : Workbook := ⟨some "id2", some "Ops", none, none⟩

/-- Concrete workbook descriptors. -/
def wb3 : Workbook := ⟨some "id3", none, some "Proj", none⟩

/-- A download oracle whose every response is a 2xx with an empty body. -/
def okNet : Req → DownloadResponse := fun _ => .ok ""

/-- The notion of an active session that `sign_out` tests: a truthy
`token` attribute (`if self.token:`). -/
def hasSession (s : TableauState) : Bool :=
  truthy s.token

/-! ## Theorems -/

/-- C3: in every client state whose token or site id is absent, each of
`list_workbooks`, `download_workbook_pdf` and `download_workbook_powerpoint`
fails with the same `Not authenticated` error and issues no network
request. -/
theorem no_session_ops_fail (cfg : TableauConfig) (s : TableauState)
    (server : Nat → WorkbooksPage) (net : Req → DownloadResponse)
    (page_size fuel : Nat) (wb out pt ornt : String) (ma : Option Int)
    (fl : List (String × String))
    (h : s.token = none ∨ s.siteId = none) :
    list_workbooks cfg s server page_size fuel = (.error notAuthMsg, []) ∧
    download_workbook_pdf cfg s net wb out pt ornt ma fl
      = (.error notAuthMsg, []) ∧
    download_workbook_powerpoint cfg s net wb out ma
      = (.error notAuthMsg, []) := by
  obtain ⟨t, si⟩ := s
  cases t <;> cases si <;>
    simp_all [list_workbooks, download_workbook_pdf,
      download_workbook_powerpoint]

/-- Witness for C3 at the freshly constructed client state. -/
theorem no_session_ops_fail_witness :
    ((⟨none, none⟩ : TableauState).token = none ∨
      (⟨none, none⟩ : TableauState).siteId = none) ∧
    (list_workbooks cfg0 ⟨none, none⟩ emptyServer 100 5
        = (.error notAuthMsg, []) ∧
      download_workbook_pdf cfg0 ⟨none, none⟩ okNet "wb" "out.pdf"
        "Letter" "Portrait" none [] = (.error notAuthMsg, []) ∧
      download_workbook_powerpoint cfg0 ⟨none, none⟩ okNet "wb" "out.pptx"
        none = (.error notAuthMsg, [])) :=
  ⟨Or.inl rfl,
    no_session_ops_fail cfg0 ⟨none, none⟩ emptyServer okNet 100 5 "wb"
      "out.pdf" "Letter" "Portrait" none [] (Or.inl rfl)⟩

/-- C7: `upload_file` on a path that does not exist raises
`FileNotFoundError` and sends no request to the drive service. -/
theorem upload_file_missing_file (fs : List String) (p : String)
    (name folder_id mime_type : Option String) (h : p ∉ fs) :
    upload_file fs p name folder_id mime_type
      = (.error ("File not found: " ++ p), []) := by
  simp [upload_file, h]

/-- Witness for C7 on an empty filesystem. -/
theorem upload_file_missing_file_witness :
    "img.png" ∉ ([] : List String) ∧
    upload_file [] "img.png" none none none
      = (.error ("File not found: " ++ "img.png"), []) :=
  ⟨by simp, upload_file_missing_file [] "img.png" none none none (by simp)⟩

/-- C8: `sign_out` is a no-op (no error, no network call, state unchanged)
when no session is active (the token is not truthy, which is how the code
itself tests for a session), and when a session is active it posts to the
sign-out endpoint and clears both the token and the site id, leaving the
client in the no-session state. -/
theorem sign_out_spec (cfg : TableauConfig) (s : TableauState) :
    (hasSession s = false → sign_out cfg s = (s, [])) ∧
    (hasSession s = true →
      sign_out cfg s
        = (⟨none, none⟩, [Req.post (build_url cfg "auth/signout")])) := by
  constructor <;> intro h <;> simp_all [sign_out, hasSession]

/-- Witness for C8 in both the signed-out and the signed-in state. -/
theorem sign_out_spec_witness :
    (hasSession ⟨none, none⟩ = false ∧
      sign_out cfg0 ⟨none, none⟩ = (⟨none, none⟩, [])) ∧
    (hasSession ⟨some "tok", some "site"⟩ = true ∧
      sign_out cfg0 ⟨some "tok", some "site"⟩
        = (⟨none, none⟩, [Req.post (build_url cfg0 "auth/signout")])) :=
  ⟨⟨rfl, (sign_out_spec cfg0 ⟨none, none⟩).1 rfl⟩,
    ⟨by decide, (sign_out_spec cfg0 ⟨some "tok", some "site"⟩).2 (by decide)⟩⟩

/-- C9: the query built by `list_files` always carries `trashed=false`,
carries the parent-folder part exactly when a (truthy) folder id is given
and the mime-type part exactly when a (truthy) mime type is given, joined
with `" and "`: all four present/absent combinations, spelled out. -/
theorem list_files_query_spec (f m : String) (hf : f ≠ "") (hm : m ≠ "") :
    list_files_query (some f) (some m)
      = "'" ++ f ++ "' in parents" ++ " and " ++
        ("mimeType='" ++ m ++ "'") ++ " and " ++ "trashed=false" ∧
    list_files_query (some f) none
      = "'" ++ f ++ "' in parents" ++ " and " ++ "trashed=false" ∧
    list_files_query none (some m)
      = "mimeType='" ++ m ++ "'" ++ " and " ++ "trashed=false" ∧
    list_files_query none none = "trashed=false" := by
  refine ⟨?_, ?_, ?_, ?_⟩ <;>
    simp [list_files_query, truthy, hf, hm, strJoin, String.append_assoc]

/-- Looking up a key that is not among an association list's keys yields
nothing. -/
lemma lookup_eq_none_of_not_mem_keys {β : Type} :
    ∀ (l : List (String × β)) (s : String),
      s ∉ l.map Prod.fst → l.lookup s = none := by
  intro l
  induction l with
  | nil => intro s _; rfl
  | cons kv tl ih =>
    intro s hs
    obtain ⟨k, b⟩ := kv
    simp only [List.map_cons, List.mem_cons, not_or] at hs
    have hk : (s == k) = false := beq_false_of_ne hs.1
    rw [List.lookup_cons, hk]
    exact ih s hs.2

/-- Looking up a key of the mime table yields its value. -/
lemma lookup_mime (k v : String) (h : (k, v) ∈ MIME_TYPES) :
    MIME_TYPES.lookup k = some v := by
  simp only [MIME_TYPES, List.mem_cons, List.not_mem_nil, or_false,
    Prod.mk.injEq] at h
  obtain ⟨rfl, rfl⟩ | ⟨rfl, rfl⟩ | ⟨rfl, rfl⟩ | ⟨rfl, rfl⟩ | ⟨rfl, rfl⟩ |
    ⟨rfl, rfl⟩ | ⟨rfl, rfl⟩ := h <;> rfl

/-- What `upload_file` does on an existing file with defaulted name and
mime type: one `files().create` request with the local filename and the
table-inferred mime type. -/
lemma upload_file_ok (fs : List String) (p : String)
    (folder_id : Option String) (hp : p ∈ fs) :
    upload_file fs p none folder_id none
      = (.ok ⟨pathName p,
            if truthy folder_id then [folder_id.getD ""] else [],
            (MIME_TYPES.lookup (strLower (pathSuffix p))).getD
              "application/octet-stream"⟩,
          [⟨pathName p,
            if truthy folder_id then [folder_id.getD ""] else [],
            (MIME_TYPES.lookup (strLower (pathSuffix p))).getD
              "application/octet-stream"⟩]) := by
  simp [upload_file, hp]

/-- Witness for C9 at concrete folder and mime-type arguments. -/
theorem list_files_query_spec_witness :
    "fid" ≠ "" ∧ "image/png" ≠ "" ∧
    (list_files_query (some "fid") (some "image/png")
      = "'" ++ "fid" ++ "' in parents" ++ " and " ++
        ("mimeType='" ++ "image/png" ++ "'") ++ " and " ++ "trashed=false" ∧
    list_files_query (some "fid") none
      = "'" ++ "fid" ++ "' in parents" ++ " and " ++ "trashed=false" ∧
    list_files_query none (some "image/png")
      = "mimeType='" ++ "image/png" ++ "'" ++ " and " ++ "trashed=false" ∧
    list_files_query none none = "trashed=false") :=
  ⟨by decide, by decide,
    list_files_query_spec "fid" "image/png" (by decide) (by decide)⟩

/-- C4: `extract_page` with a 1-indexed page number `n` within
`1 ≤ n ≤ page_count` writes a one-page PDF holding exactly the `n`-th input
page and returns the output path; outside that range it raises the range
`ValueError` instead, and then nothing is written (the written file exists
only in the `.ok` result). -/
theorem extract_page_spec {α : Type} (pages : List α) (out : String)
    (n : Int) :
    (1 ≤ n → n ≤ (pages.length : Int) →
      ∃ pg, pages.get? (n - 1).toNat = some pg ∧
        extract_page pages out n = .ok (out, [pg])) ∧
    ((n < 1 ∨ (pages.length : Int) < n) →
      ∃ msg, extract_page pages out n = .error msg) := by
  constructor
  · intro h1 h2
    have hlt : (n - 1).toNat < pages.length := by omega
    refine ⟨pages.get ⟨(n - 1).toNat, hlt⟩, List.get?_eq_get hlt, ?_⟩
    simp only [extract_page]
    rw [dif_neg (by omega)]
  · intro h
    simp only [extract_page]
    rw [dif_pos (by omega)]
    exact ⟨_, rfl⟩

/-- Witness for C4: a valid and an invalid page number over a concrete
three-page PDF. -/
theorem extract_page_spec_witness :
    ((1 : Int) ≤ 2 ∧ (2 : Int) ≤ ([10, 20, 30] : List Nat).length ∧
      ∃ pg, ([10, 20, 30] : List Nat).get? ((2 : Int) - 1).toNat = some pg ∧
        extract_page [10, 20, 30] "out.pdf" 2 = .ok ("out.pdf", [pg])) ∧
    (((0 : Int) < 1 ∨ (([10, 20, 30] : List Nat).length : Int) < 0) ∧
      ∃ msg, extract_page ([10, 20, 30] : List Nat) "out.pdf" 0
        = .error msg) :=
  ⟨⟨by decide, by decide,
      (extract_page_spec [10, 20, 30] "out.pdf" 2).1 (by decide) (by decide)⟩,
    ⟨Or.inl (by decide),
      (extract_page_spec [10, 20, 30] "out.pdf" 0).2 (Or.inl (by decide))⟩⟩

/-- C5: the permission body `share_file` sends never carries an email
address when the grantee type is `anyone` or `domain`, even when one is
supplied; when the type is `user` or `group` and a (truthy, i.e. nonempty —
the code tests Python truthiness) email is supplied, the body carries
exactly that email. -/
theorem share_file_email_spec (web : String → String) (fid role ty : String)
    (email : Option String) :
    ((ty = "anyone" ∨ ty = "domain") →
      (share_file web fid role ty email).1.emailAddress = none) ∧
    (∀ e, email = some e → e ≠ "" → (ty = "user" ∨ ty = "group") →
      (share_file web fid role ty email).1.emailAddress = some e) := by
  constructor
  · rintro (rfl | rfl) <;> simp [share_file]
  · rintro e rfl he (rfl | rfl) <;> simp [share_file, truthy, he]

/-- Witness for C5: sharing with `anyone` drops a supplied email, sharing
with a `user` attaches it. -/
theorem share_file_email_spec_witness :
    (("anyone" = "anyone" ∨ ("anyone" : String) = "domain") ∧
      (share_file (fun _ => "l") "fid" "reader" "anyone"
        (some "a@b.c")).1.emailAddress = none) ∧
    ((some "a@b.c" = some "a@b.c" ∧ ("a@b.c" : String) ≠ "" ∧
        ("user" = "user" ∨ ("user" : String) = "group")) ∧
      (share_file (fun _ => "l") "fid" "reader" "user"
        (some "a@b.c")).1.emailAddress = some "a@b.c") :=
  ⟨⟨Or.inl rfl,
      (share_file_email_spec (fun _ => "l") "fid" "reader" "anyone"
        (some "a@b.c")).1 (Or.inl rfl)⟩,
    ⟨⟨rfl, by decide, Or.inl rfl⟩,
      (share_file_email_spec (fun _ => "l") "fid" "reader" "user"
        (some "a@b.c")).2 "a@b.c" rfl (by decide) (Or.inl rfl)⟩⟩

/-- C6: uploading an existing file without an explicit mime type infers the
type from the lower-cased extension through the fixed `MIME_TYPES` table,
falling back to `application/octet-stream` for extensions outside the
table; without an explicit name the uploaded name is the local filename;
and concretely `foo.png` yields `image/png` while `foo.xyz` yields the
binary fallback. -/
theorem upload_file_infer_spec (fs : List String) (p : String)
    (folder_id : Option String) (hp : p ∈ fs) :
    (∃ r, (upload_file fs p none folder_id none).1 = .ok r ∧
      r.name = pathName p ∧
      (∀ k v, (k, v) ∈ MIME_TYPES → strLower (pathSuffix p) = k →
        r.mimeType = v) ∧
      (strLower (pathSuffix p) ∉ MIME_TYPES.map Prod.fst →
        r.mimeType = "application/octet-stream")) ∧
    (upload_file ["foo.png"] "foo.png" none none none).1
      = .ok ⟨"foo.png", [], "image/png"⟩ ∧
    (upload_file ["foo.xyz"] "foo.xyz" none none none).1
      = .ok ⟨"foo.xyz", [], "application/octet-stream"⟩ := by
  refine ⟨⟨_, congrArg Prod.fst (upload_file_ok fs p folder_id hp), rfl,
      ?_, ?_⟩, rfl, rfl⟩
  · intro k v hkv hk
    simp [hk, lookup_mime k v hkv]
  · intro hk
    simp [lookup_eq_none_of_not_mem_keys MIME_TYPES _ hk]

/-- Witness for C6 on a one-file filesystem. -/
theorem upload_file_infer_spec_witness :
    "report.pdf" ∈ ["report.pdf"] ∧
    (∃ r, (upload_file ["report.pdf"] "report.pdf" none none none).1
        = .ok r ∧
      r.name = pathName "report.pdf" ∧
      (∀ k v, (k, v) ∈ MIME_TYPES →
        strLower (pathSuffix "report.pdf") = k → r.mimeType = v) ∧
      (strLower (pathSuffix "report.pdf") ∉ MIME_TYPES.map Prod.fst →
        r.mimeType = "application/octet-stream")) :=
  ⟨by decide,
    ((upload_file_infer_spec ["report.pdf"] "report.pdf" none
      (by decide)).1)⟩

/-- C10: mime inference is case-insensitive in the extension: whenever the
file's suffix lower-cases to a key of the table, the inferred type is that
key's value — concretely, `.PNG` gives `image/png` and `.Pdf` gives
`application/pdf`. -/
theorem upload_file_mime_case_insensitive (fs : List String) (p k v : String)
    (folder_id : Option String) (hp : p ∈ fs)
    (hk : strLower (pathSuffix p) = k) (hkv : (k, v) ∈ MIME_TYPES) :
    (∃ r, (upload_file fs p none folder_id none).1 = .ok r ∧
      r.mimeType = v) ∧
    (upload_file ["pic.PNG"] "pic.PNG" none none none).1
      = .ok ⟨"pic.PNG", [], "image/png"⟩ ∧
    (upload_file ["doc.Pdf"] "doc.Pdf" none none none).1
      = .ok ⟨"doc.Pdf", [], "application/pdf"⟩ := by
  refine ⟨⟨_, congrArg Prod.fst (upload_file_ok fs p folder_id hp), ?_⟩,
    rfl, rfl⟩
  simp [hk, lookup_mime k v hkv]

/-- Witness for C10 at an upper-cased `.PNG` extension. -/
theorem upload_file_mime_case_insensitive_witness :
    ("pic.PNG" ∈ ["pic.PNG"] ∧
      strLower (pathSuffix "pic.PNG") = ".png" ∧
      (".png", "image/png") ∈ MIME_TYPES) ∧
    ∃ r, (upload_file ["pic.PNG"] "pic.PNG" none none none).1 = .ok r ∧
      r.mimeType = "image/png" :=
  ⟨⟨by decide, by decide, by decide⟩,
    (upload_file_mime_case_insensitive ["pic.PNG"] "pic.PNG" ".png"
      "image/png" none (by decide) (by decide) (by decide)).1⟩

/-- C2 counterexample: a reachable `sign_in` outcome with the token set and
the site id absent.  A 2xx response whose `credentials` element carries a
`token` attribute but no `site` child is accepted by the code (only a
missing `credentials` element raises), and it leaves the state partially
populated. -/
theorem sign_in_partial_state_ctex :
    (sign_in ⟨none, none⟩ (.ok (some ⟨some "tok", none⟩))).1.token
      = some "tok" ∧
    (sign_in ⟨none, none⟩ (.ok (some ⟨some "tok", none⟩))).1.siteId
      = none :=
  ⟨rfl, rfl⟩

/-- C2 (amended): on an HTTP error or a response without a `credentials`
element, `sign_in` raises and leaves the state unchanged; given a
`credentials` element it stores its `token` attribute as the token and its
`site` child's `id` as the site id, so both are set whenever the response
carries both (the shape a conforming server produces on success) — but a
`credentials` element carrying only one of the two leaves the state
partially populated. -/
theorem sign_in_state_spec (s : TableauState) (resp : SignInResponse) :
    (∀ e, resp = .error e → sign_in s resp = (s, .error e)) ∧
    (resp = .ok none →
      sign_in s resp = (s, .error "No credentials in response")) ∧
    (∀ c, resp = .ok (some c) →
      (sign_in s resp).1.token = c.token ∧
      (sign_in s resp).1.siteId = c.site.bind SiteElem.id ∧
      (c.token.isSome → (c.site.bind SiteElem.id).isSome →
        (sign_in s resp).1.token.isSome ∧
          (sign_in s resp).1.siteId.isSome)) := by
  refine ⟨?_, ?_, ?_⟩
  · rintro e rfl; rfl
  · rintro rfl; rfl
  · rintro ⟨tk, st⟩ rfl
    refine ⟨rfl, ?_, ?_⟩
    · cases st <;> rfl
    · intro h1 h2
      cases st <;> simp_all [sign_in]

/-- Witness for C2's amended theorem on a well-formed sign-in response. -/
theorem sign_in_state_spec_witness :
    (sign_in ⟨none, none⟩
        (.ok (some ⟨some "tok", some ⟨some "sid"⟩⟩))).1.token.isSome ∧
    (sign_in ⟨none, none⟩
        (.ok (some ⟨some "tok", some ⟨some "sid"⟩⟩))).1.siteId.isSome :=
  ((sign_in_state_spec ⟨none, none⟩
      (.ok (some ⟨some "tok", some ⟨some "sid"⟩⟩))).2.2
    ⟨some "tok", some ⟨some "sid"⟩⟩ rfl).2.2 rfl rfl

/-- Consuming one more page of the well-behaved server extends the taken
prefix by one page worth of entries. -/
lemma take_page (wbs : List Workbook) (P m : Nat) :
    wbs.take (m * P) ++ (wbs.drop (m * P)).take P = wbs.take ((m + 1) * P) := by
  rw [Nat.succ_mul, List.take_add]

/-- The number of pages the loop fetches: `max 1 ⌈T/P⌉` is at least enough
to hold all `T` entries, and is the least positive page count that is. -/
lemma ceil_pages (T P : Nat) (hP : 0 < P) :
    T ≤ max 1 ((T + P - 1) / P) * P ∧
    ∀ m, 0 < m → T ≤ m * P → max 1 ((T + P - 1) / P) ≤ m := by
  constructor
  · rcases Nat.eq_zero_or_pos T with rfl | hT
    · exact Nat.zero_le _
    · have h1 : 1 ≤ (T + P - 1) / P := by
        rw [Nat.le_div_iff_mul_le hP]; omega
      rw [max_eq_right h1]
      by_contra hcon
      push_neg at hcon
      have h2 : ((T + P - 1) / P + 1) * P = (T + P - 1) / P * P + P := by
        ring
      have h3 : (T + P - 1) / P + 1 ≤ (T + P - 1) / P := by
        rw [Nat.le_div_iff_mul_le hP]; omega
      omega
  · intro m hm hTm
    rcases Nat.eq_zero_or_pos T with rfl | hT
    · have h0 : (0 + P - 1) / P = 0 := Nat.div_eq_of_lt (by omega)
      omega
    · have h1 : (T + P - 1) / P ≤ m := by
        rw [Nat.div_le_iff_le_mul_add_pred hP]
        have hc : P * m = m * P := Nat.mul_comm P m
        omega
      omega

/-- Running the pagination loop of `list_workbooks` against the
well-behaved server from page `n` onward, with the first `n - 1` pages
already accumulated: it fetches pages `n, n+1, …, N` and ends holding the
whole listing, where `N` is the least positive page count covering all
entries. -/
lemma listLoop_good (wbs : List Workbook) (P N : Nat) (_hP : 0 < P)
    (hNP : wbs.length ≤ N * P)
    (hmin : ∀ m, 0 < m → wbs.length ≤ m * P → N ≤ m) :
    ∀ f n, 0 < n → n ≤ N → N + 1 - n ≤ f →
      listLoop (goodServer wbs P) f (wbs.take ((n - 1) * P)) n
        = (some wbs, List.range' n (N + 1 - n)) := by
  intro f
  induction f with
  | zero => intro n hn hnN hf; omega
  | succ f ih =>
    intro n hn hnN hf
    obtain ⟨m, rfl⟩ : ∃ m, n = m + 1 := ⟨n - 1, by omega⟩
    simp only [listLoop, goodServer, Nat.add_sub_cancel]
    rw [take_page]
    by_cases hbreak : wbs.length ≤ (m + 1) * P
    · have hNm : N = m + 1 :=
        le_antisymm (hmin (m + 1) (by omega) hbreak) hnN
      rw [if_pos (by simp [List.length_take]; omega)]
      rw [List.take_of_length_le hbreak, hNm]
      simp
    · have hlt : m + 2 ≤ N := by
        by_contra hcon
        push_neg at hcon
        have hNle : N ≤ m + 1 := by omega
        have : N * P ≤ (m + 1) * P := Nat.mul_le_mul_right P hNle
        omega
      rw [if_neg (by simp [List.length_take]; omega)]
      have hrec := ih (m + 2) (by omega) hlt (by omega)
      rw [show (m + 2 - 1) * P = (m + 1) * P from rfl] at hrec
      rw [show m + 1 + 1 = m + 2 from rfl, hrec]
      rw [show N + 1 - (m + 1) = (N + 1 - (m + 2)) + 1 by omega,
        List.range'_succ]

/-- C1 (amended): with page size `P ≥ 1` against a well-behaved server
holding `T` workbooks, an authenticated `list_workbooks` issues exactly
`max 1 ⌈T/P⌉` page requests — `⌈T/P⌉` for every `T ≥ 1`, and one request
when `T = 0`, since the loop must ask once before it learns the total —
with the page number advancing by one per request, and returns all `T`
descriptors in server order (so, each exactly once: no duplicates beyond
those in the server's own listing). -/
theorem list_workbooks_pagination (cfg : TableauConfig)
    (wbs : List Workbook) (P fuel : Nat) (tok site : String) (hP : 0 < P)
    (htok : tok ≠ "") (hsite : site ≠ "")
    (hfuel : max 1 ((wbs.length + P - 1) / P) ≤ fuel) :
    list_workbooks cfg ⟨some tok, some site⟩ (goodServer wbs P) P fuel
      = (.ok wbs,
        (List.range' 1 (max 1 ((wbs.length + P - 1) / P))).map fun n =>
          Req.get (build_url cfg ("sites/" ++ site ++ "/workbooks"))
            [("pageSize", toString P), ("pageNumber", toString n)]) := by
  obtain ⟨h1, h2⟩ := ceil_pages wbs.length P hP
  have hloop := listLoop_good wbs P (max 1 ((wbs.length + P - 1) / P)) hP
    h1 h2 fuel 1 (by omega) (by omega) (by omega)
  simp only [Nat.sub_self, Nat.zero_mul, List.take_zero,
    Nat.add_sub_cancel] at hloop
  simp only [list_workbooks]
  rw [if_neg (by simp [htok, hsite])]
  rw [hloop]

/-- C1 counterexample, at `T = 0`, `P = 1`: a server reporting a total of
zero workbooks still receives one page request (the loop must ask once to
learn the total), while `⌈T/P⌉ = 0`. -/
theorem list_workbooks_pagination_ctex :
    (list_workbooks cfg0 ⟨some "t", some "s"⟩ (goodServer [] 1) 1 1).2.length
      = 1 ∧
    (List.length ([] : List Workbook) + 1 - 1) / 1 = 0 :=
  ⟨by decide, by decide⟩

/-- Witness for C1's amended theorem: three workbooks at page size two are
delivered by page requests 1 and 2. -/
theorem list_workbooks_pagination_witness :
    (0 < 2 ∧ ("t" : String) ≠ "" ∧ ("s" : String) ≠ "" ∧
      max 1 (([wb1, wb2, wb3].length + 2 - 1) / 2) ≤ 2) ∧
    list_workbooks cfg0 ⟨some "t", some "s"⟩ (goodServer [wb1, wb2, wb3] 2)
        2 2
      = (.ok [wb1, wb2, wb3],
        (List.range' 1 (max 1 (([wb1, wb2, wb3].length + 2 - 1) / 2))).map
          fun n =>
            Req.get (build_url cfg0 ("sites/" ++ "s" ++ "/workbooks"))
              [("pageSize", toString 2), ("pageNumber", toString n)]) :=
  ⟨⟨by decide, by decide, by decide, by decide⟩,
    list_workbooks_pagination cfg0 [wb1, wb2, wb3] 2 2 "t" "s" (by decide)
      (by decide) (by decide) (by decide)⟩

end Gslidegen
